import Mathlib

/-!
Shallow embedding of the SOLPRISM integration layer of the
`agent-treasury-manager` repository (file `src/integrations/solprism.ts`,
provided as `src/unnamed/part_000`), together with theorems settling the
frozen claims about its commit → execute → reveal audit sequencing.

Modelling conventions:
* JavaScript numbers that the code only carries through (portfolio values,
  confidence scores, accountability scores) are modelled as `Rat`; the code
  performs no arithmetic on them.
* `Date` values are modelled as natural-number timestamps produced by a
  caller-supplied clock stream `clock : Nat → Nat`; the n-th `new Date()`
  call inside one `executeAudited` invocation reads `clock n`.
* The external `@solprism/sdk` client is an oracle record of call/response
  functions; every external invocation is also recorded in an explicit call
  trace so that "no reveal call is attempted" style properties are statable.
* Fallible external calls and the caller-supplied action return
  `Except (TreasuryError ε) _`; a thrown JavaScript error is an `error`
  value and is propagated exactly as the source propagates exceptions.
-/

namespace AgentTreasury

/-- Risk level assessed by the agent before executing
(`type RiskLevel = 'low' | 'medium' | 'high' | 'critical'`). -/
inductive RiskLevel where
  | low
  | medium
  | high
  | critical
deriving DecidableEq, Repr

/-- Treasury action types that SOLPRISM can wrap (`type TreasuryActionType`). -/
inductive TreasuryActionType where
  | rebalance
  | transfer
  | allocation
  | fee_collection
  | yield_deployment
  | payment
  | swap
  | emergency_withdrawal
deriving DecidableEq, Repr

/-- The string literal of each `TreasuryActionType` union member. -/
def actionTypeString : TreasuryActionType → String
  | .rebalance => "rebalance"
  | .transfer => "transfer"
  | .allocation => "allocation"
  | .fee_collection => "fee_collection"
  | .yield_deployment => "yield_deployment"
  | .payment => "payment"
  | .swap => "swap"
  | .emergency_withdrawal => "emergency_withdrawal"

/-- The string literal of each `RiskLevel` union member. -/
def riskLevelString : RiskLevel → String
  | .low => "low"
  | .medium => "medium"
  | .high => "high"
  | .critical => "critical"

/-- Risk assessment sub-object of `TreasuryReasoning` (`risk: { level, factors }`). -/
structure RiskAssessment where
  level : RiskLevel
  factors : List String
deriving DecidableEq, Repr

/-- Current portfolio state (`portfolioContext?: { totalValueUSD, positions }`).
`positions : Record<string, number>` is modelled as an association list. -/
structure PortfolioContext where
  totalValueUSD : Rat
  positions : List (String × Rat)
deriving DecidableEq, Repr

/-- The reasoning an agent commits before a treasury action
(`interface TreasuryReasoning`). -/
structure TreasuryReasoning where
  action : TreasuryActionType
  rationale : String
  risk : RiskAssessment
  expectedOutcome : String
  portfolioContext : Option PortfolioContext
  constraints : Option (List String)
deriving DecidableEq, Repr

/-- SOLPRISM commit result (tx signature, commitment address, hash), the
observable fields of the SDK's `CommitResult`. -/
structure CommitResult where
  txSignature : String
  commitmentAddress : String
  commitmentHash : String
deriving DecidableEq, Repr

/-- SOLPRISM reveal result (tx signature, reasoning URI), the observable
fields of the SDK's `RevealResult`. -/
structure RevealResult where
  txSignature : String
  reasoningUri : String
deriving DecidableEq, Repr

/-- Timestamps of an audited action (`timestamps: { committed, executed,
revealed }`), each a `Date` modelled as a natural-number instant. -/
structure Timestamps where
  committed : Nat
  executed : Nat
  revealed : Nat
deriving DecidableEq, Repr

/-- Result of a SOLPRISM-wrapped treasury operation
(`interface AuditedActionResult<T>`). -/
structure AuditedActionResult (α : Type) where
  reasoning : TreasuryReasoning
  commit : CommitResult
  reveal : RevealResult
  actionResult : α
  explorerUrl : String
  timestamps : Timestamps
deriving DecidableEq, Repr

/-- Caller-supplied configuration (`interface SolprismIntegrationConfig`);
optional fields are `Option`s, merged with defaults by the constructor. -/
structure SolprismIntegrationConfig where
  rpcUrl : Option String
  programId : Option String
  agentName : String
  reasoningStorageUri : Option String
  autoRegister : Option Bool
deriving DecidableEq, Repr

/-- The configuration after the constructor's merge
`{ rpcUrl: DEFAULT_RPC, programId: SOLPRISM_PROGRAM_ID, autoRegister: true,
...config }`: every defaulted field is concrete. -/
structure ResolvedConfig where
  rpcUrl : String
  programId : String
  agentName : String
  reasoningStorageUri : Option String
  autoRegister : Bool
deriving DecidableEq, Repr

/-- `const SOLPRISM_PROGRAM_ID`. -/
def SOLPRISM_PROGRAM_ID : String := "CZcvoryaQNrtZ3qb3gC1h9opcYpzEP1D9Mu1RVwFQeBu"

/-- `const SOLPRISM_EXPLORER`. -/
def SOLPRISM_EXPLORER : String := "https://www.solprism.app"

/-- `const DEFAULT_RPC`. -/
def DEFAULT_RPC : String := "https://api.devnet.solana.com"

/-- Map risk levels to confidence scores (0-100)
(`const RISK_TO_CONFIDENCE: Record<RiskLevel, number>`). -/
def RISK_TO_CONFIDENCE : RiskLevel → Rat
  | .low => 90
  | .medium => 70
  | .high => 45
  | .critical => 20

/-- Parameter mapping of a trace's `action.parameters` object: the keys
`risk_level` and `risk_factors` are always present; the keys
`portfolio_value_usd`/`positions` and `constraints` are present exactly when
the corresponding optional reasoning fields are (object-spread semantics of
`...(reasoning.portfolioContext && \x7b ... \x7d)`). -/
structure ActionParameters where
  risk_level : RiskLevel
  risk_factors : List String
  portfolio_value_usd : Option Rat
  positions : Option (List (String × Rat))
  constraints : Option (List String)
deriving DecidableEq, Repr

/-- The `action` sub-object of a `ReasoningTrace`. -/
structure TraceAction where
  type : TreasuryActionType
  description : String
  parameters : ActionParameters
deriving DecidableEq, Repr

/-- The `decision` sub-object of a `ReasoningTrace`. -/
structure TraceDecision where
  confidence : Rat
  reasoning : String
  expectedOutcome : String
deriving DecidableEq, Repr

/-- The SDK's reasoning-trace shape, as consumed by commit/verify calls. -/
structure ReasoningTrace where
  action : TraceAction
  decision : TraceDecision
deriving DecidableEq, Repr

/-- Modelled from the spec: the external SDK's `createReasoningTrace` is not
part of this repository; per spec section 4.1 the Formatter's output is the
trace object itself, so the SDK constructor is modelled as the identity on
its payload. -/
def createReasoningTrace (trace : ReasoningTrace) : ReasoningTrace := trace

/-- Convert `TreasuryReasoning` into a SOLPRISM `ReasoningTrace`
(function `toReasoningTrace`). -/
def toReasoningTrace (reasoning : TreasuryReasoning) : ReasoningTrace :=
  createReasoningTrace
    { action :=
        { type := reasoning.action
          description := reasoning.rationale
          parameters :=
            { risk_level := reasoning.risk.level
              risk_factors := reasoning.risk.factors
              portfolio_value_usd :=
                reasoning.portfolioContext.map (fun pc => pc.totalValueUSD)
              positions :=
                reasoning.portfolioContext.map (fun pc => pc.positions)
              constraints := reasoning.constraints } }
      decision :=
        { confidence := RISK_TO_CONFIDENCE reasoning.risk.level
          reasoning := reasoning.rationale
          expectedOutcome := reasoning.expectedOutcome } }

/-- Build a SOLPRISM explorer URL for a commitment address
(function `buildExplorerUrl`). -/
def buildExplorerUrl (commitmentAddress : String) : String :=
  SOLPRISM_EXPLORER ++ "/commitment/" ++ commitmentAddress

/-- A Solana keypair, observable here only through its public key
(`Keypair` from `@solana/web3.js`). -/
structure Wallet where
  publicKey : String
deriving DecidableEq, Repr

/-- Errors surfaced by the integration: the `NotInitialized` `Error` thrown
by `ensureReady`, or an arbitrary raised value of type `ε` (JavaScript can
throw anything; external calls and the caller action raise `ε` values). -/
inductive TreasuryError (ε : Type) where
  | notInitialized (message : String)
  | raised (e : ε)
deriving DecidableEq, Repr

/-- The message of the `Error` thrown by `ensureReady`. -/
def notInitializedMessage : String :=
  "SolprismTreasury not initialized. Call initialize(wallet) first."

/-- Result shape of the SDK's `verifyReasoning` call. -/
structure VerifyResult where
  valid : Bool
  message : String
deriving DecidableEq, Repr

/-- Result shape of `SolprismTreasury.verifyAction`. -/
structure VerifyActionResult where
  valid : Bool
  message : String
  explorerUrl : String
deriving DecidableEq, Repr

/-- One external invocation made during an operation: calls on the
`SolprismClient` collaborator plus the caller-supplied action. Recording
these makes call-count properties ("no reveal call is attempted", "zero
external calls") statable. -/
inductive ExtCall where
  | isAgentRegisteredCall (publicKey : String)
  | registerAgentCall (wallet : Wallet) (agentName : String)
  | commitCall (wallet : Wallet) (trace : ReasoningTrace)
  | actionCall
  | revealCall (wallet : Wallet) (commitmentAddress : String) (uri : String)
  | getAccountabilityCall (publicKey : String)
  | getAgentCommitmentsCall (publicKey : String) (limit : Nat)
  | verifyCall (commitmentAddress : String) (trace : ReasoningTrace)
deriving DecidableEq, Repr

/-- Whether an external invocation is a reveal call. -/
def ExtCall.isReveal : ExtCall → Bool
  | .revealCall _ _ _ => true
  | _ => false

/-- Oracle for the external `SolprismClient`: each method maps its arguments
to the outcome the external system would produce (`error` models a rejected
promise). `ρ` is the opaque payload type of `getAgentCommitments`. -/
structure SolprismClientOracle (ε ρ : Type) where
  isAgentRegistered : String → Except (TreasuryError ε) Bool
  registerAgent : Wallet → String → Except (TreasuryError ε) Unit
  commitReasoning : Wallet → ReasoningTrace → Except (TreasuryError ε) CommitResult
  revealReasoning : Wallet → String → String → Except (TreasuryError ε) RevealResult
  verifyReasoning : String → ReasoningTrace → Except (TreasuryError ε) VerifyResult
  getAccountability : String → Except (TreasuryError ε) (Option Rat)
  getAgentCommitments : String → Nat → Except (TreasuryError ε) ρ

/-- Mutable state of a `SolprismTreasury` instance: resolved config, the
optional wallet, the `registered` flag, and the session action log. -/
structure SolprismTreasury (α : Type) where
  config : ResolvedConfig
  wallet : Option Wallet
  registered : Bool
  actionLog : List (AuditedActionResult α)
deriving DecidableEq, Repr

/-- The constructor `new SolprismTreasury(config)`: merge caller config over
defaults (`rpcUrl`, `programId`, `autoRegister: true`); wallet unset,
unregistered, empty session log. -/
def mkSolprismTreasury (α : Type) (config : SolprismIntegrationConfig) :
    SolprismTreasury α :=
  { config :=
      { rpcUrl := config.rpcUrl.getD DEFAULT_RPC
        programId := config.programId.getD SOLPRISM_PROGRAM_ID
        agentName := config.agentName
        reasoningStorageUri := config.reasoningStorageUri
        autoRegister := config.autoRegister.getD true }
    wallet := none
    registered := false
    actionLog := [] }

/-- `initialize(wallet)`: store the wallet; when `autoRegister` is set,
query registration and register if needed, then mark `registered`. Returns
the updated state, the outcome, and the external calls made. -/
def initializeAgent (st : SolprismTreasury α) (client : SolprismClientOracle ε ρ)
    (wallet : Wallet) :
    SolprismTreasury α × Except (TreasuryError ε) Unit × List ExtCall :=
  let st1 := { st with wallet := some wallet }
  if st1.config.autoRegister then
    match client.isAgentRegistered wallet.publicKey with
    | .error e => (st1, .error e, [.isAgentRegisteredCall wallet.publicKey])
    | .ok true =>
        ({ st1 with registered := true }, .ok (),
         [.isAgentRegisteredCall wallet.publicKey])
    | .ok false =>
        match client.registerAgent wallet st1.config.agentName with
        | .error e =>
            (st1, .error e,
             [.isAgentRegisteredCall wallet.publicKey,
              .registerAgentCall wallet st1.config.agentName])
        | .ok _ =>
            ({ st1 with registered := true }, .ok (),
             [.isAgentRegisteredCall wallet.publicKey,
              .registerAgentCall wallet st1.config.agentName])
  else (st1, .ok (), [])

/-- `isReady()`: wallet present and agent registered. -/
def isReady (st : SolprismTreasury α) : Bool :=
  st.wallet.isSome && st.registered

/-- `ensureReady()`: throws `NotInitialized` exactly when no wallet is set
(the `registered` flag is not consulted). -/
def ensureReady (st : SolprismTreasury α) : Except (TreasuryError ε) Unit :=
  match st.wallet with
  | none => .error (.notInitialized notInitializedMessage)
  | some _ => .ok ()

/-- `buildReasoningUri(reasoning, commit)`: caller-configured storage base
URI joined with the commitment hash when configured, otherwise the SOLPRISM
explorer URL of the commitment address. The `reasoning` parameter is unused
by the source as well. -/
def buildReasoningUri (config : ResolvedConfig)
    (_reasoning : TreasuryReasoning) (commit : CommitResult) : String :=
  match config.reasoningStorageUri with
  | some base => base ++ "/" ++ commit.commitmentHash
  | none => SOLPRISM_EXPLORER ++ "/commitment/" ++ commit.commitmentAddress

/-- Decidable equality of `Except` outcomes, so that concrete witnesses can
be checked by `decide`. -/
instance {ε α : Type} [DecidableEq ε] [DecidableEq α] :
    DecidableEq (Except ε α) := fun x y =>
  match x, y with
  | .error a, .error b =>
      decidable_of_iff (a = b) ⟨fun h => h ▸ rfl, fun h => by injection h⟩
  | .error _, .ok _ => isFalse (fun h => Except.noConfusion h)
  | .ok _, .error _ => isFalse (fun h => Except.noConfusion h)
  | .ok a, .ok b =>
      decidable_of_iff (a = b) ⟨fun h => h ▸ rfl, fun h => by injection h⟩

/-- Outcome of one `executeAudited` invocation: the returned value or the
propagated error, the post-call instance state, and the external calls
made, in order. -/
structure ExecOutcome (α ε : Type) where
  result : Except (TreasuryError ε) (AuditedActionResult α)
  state : SolprismTreasury α
  calls : List ExtCall
deriving DecidableEq, Repr

/-- `executeAudited(reasoning, action)`: ensure a wallet is set, commit the
reasoning trace, run the caller action, reveal the reasoning, then append
the assembled record to the session log and return it. Any step's error
propagates unmodified and aborts the remaining steps.

The source makes up to six `new Date()` calls: three initialize the
`timestamps` object (indices 0-2 of the clock stream, each overwritten
before any use), then `committed` is re-read after the commit resolves
(index 3), `executed` after the action settles (index 4, on either branch),
and `revealed` after the reveal resolves (index 5); only indices 3-5 are
ever observable, so only they are read here. -/
def executeAudited (st : SolprismTreasury α) (client : SolprismClientOracle ε ρ)
    (clock : Nat → Nat) (reasoning : TreasuryReasoning)
    (action : Except (TreasuryError ε) α) : ExecOutcome α ε :=
  match st.wallet with
  | none =>
      { result := .error (.notInitialized notInitializedMessage)
        state := st
        calls := [] }
  | some w =>
      let trace := toReasoningTrace reasoning
      match client.commitReasoning w trace with
      | .error e =>
          { result := .error e, state := st, calls := [.commitCall w trace] }
      | .ok commit =>
          let committed := clock 3
          match action with
          | .error e =>
              { result := .error e
                state := st
                calls := [.commitCall w trace, .actionCall] }
          | .ok actionResult =>
              let executed := clock 4
              let reasoningUri := buildReasoningUri st.config reasoning commit
              match client.revealReasoning w commit.commitmentAddress reasoningUri with
              | .error e =>
                  { result := .error e
                    state := st
                    calls := [.commitCall w trace, .actionCall,
                              .revealCall w commit.commitmentAddress reasoningUri] }
              | .ok reveal =>
                  let revealed := clock 5
                  let record : AuditedActionResult α :=
                    { reasoning := reasoning
                      commit := commit
                      reveal := reveal
                      actionResult := actionResult
                      explorerUrl := buildExplorerUrl commit.commitmentAddress
                      timestamps :=
                        { committed := committed
                          executed := executed
                          revealed := revealed } }
                  { result := .ok record
                    state := { st with actionLog := st.actionLog ++ [record] }
                    calls := [.commitCall w trace, .actionCall,
                              .revealCall w commit.commitmentAddress reasoningUri] }

/-- `verifyAction(commitmentAddress, reasoning)`: reformat the reasoning and
delegate to the client's verify call; no initialization is required (no
`ensureReady`, no wallet use). Returns the outcome and the calls made. -/
def verifyAction (client : SolprismClientOracle ε ρ)
    (commitmentAddress : String) (reasoning : TreasuryReasoning) :
    Except (TreasuryError ε) VerifyActionResult × List ExtCall :=
  let trace := toReasoningTrace reasoning
  match client.verifyReasoning commitmentAddress trace with
  | .error e => (.error e, [.verifyCall commitmentAddress trace])
  | .ok result =>
      (.ok { valid := result.valid
             message := result.message
             explorerUrl := buildExplorerUrl commitmentAddress },
       [.verifyCall commitmentAddress trace])

/-- `getAccountabilityScore()`: `ensureReady` then delegate to the client. -/
def getAccountabilityScore (st : SolprismTreasury α)
    (client : SolprismClientOracle ε ρ) :
    Except (TreasuryError ε) (Option Rat) × List ExtCall :=
  match st.wallet with
  | none => (.error (.notInitialized notInitializedMessage), [])
  | some w =>
      (client.getAccountability w.publicKey,
       [.getAccountabilityCall w.publicKey])

/-- The source's default for `getAuditHistory`'s `limit` parameter. -/
def defaultAuditHistoryLimit : Nat := 50

/-- `getAuditHistory(limit = 50)`: `ensureReady` then delegate to the
client (the default argument is `defaultAuditHistoryLimit`). -/
def getAuditHistory (st : SolprismTreasury α)
    (client : SolprismClientOracle ε ρ) (limit : Nat) :
    Except (TreasuryError ε) ρ × List ExtCall :=
  match st.wallet with
  | none => (.error (.notInitialized notInitializedMessage), [])
  | some w =>
      (client.getAgentCommitments w.publicKey limit,
       [.getAgentCommitmentsCall w.publicKey limit])

/-- `getSessionLog()`: the contents of the spread-copied array
`[...this.actionLog]` (the aliasing aspect of the defensive copy is modelled
separately on an explicit array heap below). -/
def getSessionLog (st : SolprismTreasury α) : List (AuditedActionResult α) :=
  st.actionLog

/-- `Date.prototype.toISOString()` on a timestamp. The embedding renders the
instant as its decimal value; the report properties rely only on the
rendering being a deterministic function of the instant. -/
def toISOString (t : Nat) : String := toString t

/-- The `'═══…═══'` divider line used by the report. -/
def reportDivider : String := String.mk (List.replicate 51 '═')

/-- The fixed message returned on an empty session log. -/
def emptyReportMessage : String := "No audited actions in this session."

/-- The eight lines pushed for one log entry inside `formatAuditReport`'s
`for (const entry of this.actionLog)` loop: action kind upper-cased,
rationale, risk level with joined factors, expected outcome, commitment
hash truncated to 16 characters, explorer URL, committed timestamp, and a
trailing blank line. -/
def recordBlock (entry : AuditedActionResult α) : List String :=
  ["  ┌─ " ++ (actionTypeString entry.reasoning.action).toUpper,
   "  │  Rationale: " ++ entry.reasoning.rationale,
   "  │  Risk: " ++ riskLevelString entry.reasoning.risk.level ++ " (" ++
     String.intercalate ", " entry.reasoning.risk.factors ++ ")",
   "  │  Expected: " ++ entry.reasoning.expectedOutcome,
   "  │  Commitment: " ++ entry.commit.commitmentHash.take 16 ++ "...",
   "  │  Explorer: " ++ entry.explorerUrl,
   "  └─ Committed " ++ toISOString entry.timestamps.committed,
   ""]

/-- `formatAuditReport()` over a given config and log: the empty-state
sentinel on an empty log, otherwise the header lines, then the per-entry
lines accumulated by the loop (a left fold of pushes), then the footer,
joined with newlines. -/
def formatAuditReportOn (config : ResolvedConfig)
    (log : List (AuditedActionResult α)) : String :=
  match log with
  | [] => emptyReportMessage
  | first :: _ =>
      let headerLines : List String :=
        [reportDivider,
         "  SOLPRISM Audit Report — Agent Treasury Manager",
         reportDivider,
         "",
         "  Agent: " ++ config.agentName,
         "  Actions: " ++ toString log.length,
         "  Session: " ++ toISOString first.timestamps.committed,
         ""]
      let bodyLines :=
        log.foldl (fun acc entry => acc ++ recordBlock entry) headerLines
      let allLines :=
        bodyLines ++
          [reportDivider,
           "  Verify any action: https://www.solprism.app/",
           reportDivider]
      String.intercalate "\n" allLines

/-- `formatAuditReport()` on an instance state. -/
def formatAuditReport (st : SolprismTreasury α) : String :=
  formatAuditReportOn st.config st.actionLog

-- Array-heap model of the session-log defensive copy

/-- A heap of JavaScript arrays of audit records: cell `r` of the heap is
the array reached through reference `r`. `[...xs]` allocates a fresh cell. -/
abbrev LedgerHeap (α : Type) : Type := List (List (AuditedActionResult α))

/-- Read the array behind a reference (absent references read as empty). -/
def readArray (h : LedgerHeap α) (r : Nat) : List (AuditedActionResult α) :=
  (List.get? h r).getD []

/-- Allocate a fresh array holding `xs`; returns its reference. -/
def allocArray (h : LedgerHeap α) (xs : List (AuditedActionResult α)) :
    Nat × LedgerHeap α :=
  (List.length h, h ++ [xs])

/-- In-place mutation of the array behind a reference (any JavaScript
mutation of an array the caller holds: push, splice, index assignment, …,
summarized by the resulting contents `xs`). -/
def writeArray (h : LedgerHeap α) (r : Nat) (xs : List (AuditedActionResult α)) :
    LedgerHeap α :=
  List.set h r xs

/-- The orchestrator's ledger-relevant state in the heap model: its config
and the reference to its private `actionLog` array. -/
structure HeapOrch where
  config : ResolvedConfig
  actionLogRef : Nat

/-- `getSessionLog()` in the heap model: `return [...this.actionLog]`
copies the private array's contents into a freshly allocated array and
returns the fresh reference. -/
def getSessionLogH (st : HeapOrch) (h : LedgerHeap α) : Nat × LedgerHeap α :=
  allocArray h (readArray h st.actionLogRef)

/-- `formatAuditReport()` in the heap model: reads the private array. -/
def formatAuditReportH (st : HeapOrch) (h : LedgerHeap α) : String :=
  formatAuditReportOn st.config (readArray h st.actionLogRef)

-- Concrete fixtures for witnesses

/-- A resolved configuration with all defaults and no storage URI. -/
def sampleConfig : ResolvedConfig :=
  { rpcUrl := DEFAULT_RPC
    programId := SOLPRISM_PROGRAM_ID
    agentName := "Skippy Treasury Agent"
    reasoningStorageUri := none
    autoRegister := true }

/-- A concrete wallet. -/
def sampleWallet : Wallet := { publicKey := "agentPk" }

/-- A concrete reasoning value, mirroring the in-source usage example. -/
def sampleReasoning : TreasuryReasoning :=
  { action := .rebalance
    rationale := "SOL allocation drifted to 68%, target is 50%."
    risk := { level := .low, factors := ["High liquidity"] }
    expectedOutcome := "Portfolio returns to 50/50 split"
    portfolioContext := some { totalValueUSD := 15000, positions := [("SOL", 1)] }
    constraints := none }

/-- A concrete commit result returned by the success-path oracle. -/
def sampleCommit : CommitResult :=
  { txSignature := "sigCommit"
    commitmentAddress := "addr123"
    commitmentHash := "hash1234567890abcdef99" }

/-- A concrete reveal result returned by the success-path oracle. -/
def sampleReveal : RevealResult :=
  { txSignature := "sigReveal", reasoningUri := "uriR" }

/-- A fully initialized orchestrator state with an empty session log. -/
def sampleState : SolprismTreasury String :=
  { config := sampleConfig
    wallet := some sampleWallet
    registered := true
    actionLog := [] }

/-- An external-client oracle on which every call succeeds. -/
def okClient : SolprismClientOracle String Nat :=
  { isAgentRegistered := fun _ => .ok true
    registerAgent := fun _ _ => .ok ()
    commitReasoning := fun _ _ => .ok sampleCommit
    revealReasoning := fun _ _ _ => .ok sampleReveal
    verifyReasoning := fun _ _ => .ok { valid := true, message := "match" }
    getAccountability := fun _ => .ok (some 95)
    getAgentCommitments := fun _ _ => .ok 7 }

/-- An oracle whose commit call is rejected. -/
def commitFailClient : SolprismClientOracle String Nat :=
  { okClient with commitReasoning := fun _ _ => .error (.raised "commit-fail") }

/-- An oracle whose reveal call is rejected. -/
def revealFailClient : SolprismClientOracle String Nat :=
  { okClient with revealReasoning := fun _ _ _ => .error (.raised "reveal-fail") }

/-- The audit record produced on the success path from the fixtures above,
under the identity clock. -/
def sampleRecord : AuditedActionResult String :=
  { reasoning := sampleReasoning
    commit := sampleCommit
    reveal := sampleReveal
    actionResult := "ok"
    explorerUrl := buildExplorerUrl sampleCommit.commitmentAddress
    timestamps := { committed := 3, executed := 4, revealed := 5 } }

/-- An orchestrator state with a wallet set but `registered` still false
(reachable by initializing with `autoRegister: false`): `isReady()` is
false yet `ensureReady` passes. -/
def c4State : SolprismTreasury String :=
  { config := { sampleConfig with autoRegister := false }
    wallet := some sampleWallet
    registered := false
    actionLog := [] }

/-- The caller configuration whose resolution followed by
`initialize(sampleWallet)` yields `c4State`. -/
def c4CallerConfig : SolprismIntegrationConfig :=
  { rpcUrl := none
    programId := none
    agentName := "Skippy Treasury Agent"
    reasoningStorageUri := none
    autoRegister := some false }

/-- Heap-model orchestrator fixture for the defensive-copy witness. -/
def c8Orch : HeapOrch := { config := sampleConfig, actionLogRef := 0 }

/-- Heap fixture: one internal array holding one record. -/
def c8Heap : LedgerHeap String := [[sampleRecord]]

-- Theorems

/-- C1: for every initialized orchestrator, reasoning, and successfully
resolving action, when the external commit and reveal calls also succeed,
`executeAudited` returns a record whose `actionResult` is the action's
value and whose `explorerUrl` contains the commitment address, and the
session ledger afterwards is the old ledger with exactly that record
appended at the end (so its length grows by one). -/
theorem c1_executeAudited_success_appends_record
    (st : SolprismTreasury α) (client : SolprismClientOracle ε ρ)
    (clock : Nat → Nat) (reasoning : TreasuryReasoning) (w : Wallet) (v : α)
    (commit : CommitResult) (reveal : RevealResult)
    (hw : st.wallet = some w) (_hreg : st.registered = true)
    (hc : client.commitReasoning w (toReasoningTrace reasoning) = .ok commit)
    (hr : client.revealReasoning w commit.commitmentAddress
            (buildReasoningUri st.config reasoning commit) = .ok reveal) :
    ∃ record,
      (executeAudited st client clock reasoning (.ok v)).result = .ok record ∧
      record.actionResult = v ∧
      (∃ pre post, record.explorerUrl = pre ++ commit.commitmentAddress ++ post) ∧
      (executeAudited st client clock reasoning (.ok v)).state.actionLog
        = st.actionLog ++ [record] ∧
      (executeAudited st client clock reasoning (.ok v)).state.actionLog.length
        = st.actionLog.length + 1 := by
  refine ⟨{ reasoning := reasoning, commit := commit, reveal := reveal,
            actionResult := v,
            explorerUrl := buildExplorerUrl commit.commitmentAddress,
            timestamps :=
              { committed := clock 3, executed := clock 4, revealed := clock 5 } },
          ?_, rfl, ⟨SOLPRISM_EXPLORER ++ "/commitment/", "", ?_⟩, ?_, ?_⟩ <;>
    simp [executeAudited, buildExplorerUrl, hw, hc, hr]

/-- C1 witness: the success property evaluated on the concrete fixtures. -/
theorem c1_executeAudited_success_appends_record_witness :
    ∃ record,
      (executeAudited sampleState okClient id sampleReasoning
          (.ok "ok")).result = .ok record ∧
      record.actionResult = "ok" ∧
      (∃ pre post,
        record.explorerUrl = pre ++ sampleCommit.commitmentAddress ++ post) ∧
      (executeAudited sampleState okClient id sampleReasoning
          (.ok "ok")).state.actionLog = sampleState.actionLog ++ [record] ∧
      (executeAudited sampleState okClient id sampleReasoning
          (.ok "ok")).state.actionLog.length
        = sampleState.actionLog.length + 1 :=
  c1_executeAudited_success_appends_record sampleState okClient id
    sampleReasoning sampleWallet "ok" sampleCommit sampleReveal rfl rfl rfl rfl

/-- C2: for every initialized orchestrator, if the commit succeeds and the
caller-supplied action then raises an error, `executeAudited` attempts no
reveal call, leaves the whole instance state (hence the session ledger's
length and contents) unchanged, and re-raises exactly the error value the
action raised. -/
theorem c2_action_error_no_reveal_no_append
    (st : SolprismTreasury α) (client : SolprismClientOracle ε ρ)
    (clock : Nat → Nat) (reasoning : TreasuryReasoning) (w : Wallet)
    (commit : CommitResult) (e : TreasuryError ε)
    (hw : st.wallet = some w) (_hreg : st.registered = true)
    (hc : client.commitReasoning w (toReasoningTrace reasoning) = .ok commit) :
    (executeAudited st client clock reasoning (.error e)).result = .error e ∧
    (executeAudited st client clock reasoning (.error e)).state = st ∧
    (executeAudited st client clock reasoning (.error e)).calls
      = [.commitCall w (toReasoningTrace reasoning), .actionCall] ∧
    ∀ c ∈ (executeAudited st client clock reasoning (.error e)).calls,
      c.isReveal = false := by
  refine ⟨?_, ?_, ?_, ?_⟩ <;>
    simp [executeAudited, hw, hc, ExtCall.isReveal]

/-- C2 witness: the action-failure property evaluated on the fixtures with
a concrete raised error. -/
theorem c2_action_error_no_reveal_no_append_witness :
    (executeAudited sampleState okClient id sampleReasoning
        (.error (.raised "action-fail") : Except (TreasuryError String) String)).result
      = .error (.raised "action-fail") ∧
    (executeAudited sampleState okClient id sampleReasoning
        (.error (.raised "action-fail"))).state = sampleState ∧
    (executeAudited sampleState okClient id sampleReasoning
        (.error (.raised "action-fail"))).calls
      = [.commitCall sampleWallet (toReasoningTrace sampleReasoning), .actionCall] ∧
    ∀ c ∈ (executeAudited sampleState okClient id sampleReasoning
        (.error (.raised "action-fail"))).calls, c.isReveal = false :=
  c2_action_error_no_reveal_no_append sampleState okClient id sampleReasoning
    sampleWallet sampleCommit (.raised "action-fail") rfl rfl rfl

/-- C3: for every `executeAudited` call with a wallet set: (a) if the
external commit call fails, that error propagates to the caller, the
session ledger is unchanged, and no reveal call is attempted; (b) if the
commit and the action both succeed but the external reveal call fails, the
session ledger is unchanged and the surfaced error is the reveal failure. -/
theorem c3_commit_and_reveal_failures
    (st : SolprismTreasury α) (client : SolprismClientOracle ε ρ)
    (clock : Nat → Nat) (reasoning : TreasuryReasoning) (w : Wallet)
    (hw : st.wallet = some w) :
    (∀ e, client.commitReasoning w (toReasoningTrace reasoning) = .error e →
      ∀ action,
        (executeAudited st client clock reasoning action).result = .error e ∧
        (executeAudited st client clock reasoning action).state.actionLog
          = st.actionLog ∧
        ∀ c ∈ (executeAudited st client clock reasoning action).calls,
          c.isReveal = false) ∧
    (∀ commit v e,
      client.commitReasoning w (toReasoningTrace reasoning) = .ok commit →
      client.revealReasoning w commit.commitmentAddress
          (buildReasoningUri st.config reasoning commit) = .error e →
        (executeAudited st client clock reasoning (.ok v)).result = .error e ∧
        (executeAudited st client clock reasoning (.ok v)).state.actionLog
          = st.actionLog) := by
  constructor
  · intro e hc action
    refine ⟨?_, ?_, ?_⟩ <;> simp [executeAudited, hw, hc, ExtCall.isReveal]
  · intro commit v e hc hr
    refine ⟨?_, ?_⟩ <;> simp [executeAudited, hw, hc, hr]

/-- C3 witness: both failure branches evaluated on the fixtures, using a
commit-rejecting oracle and a reveal-rejecting oracle. -/
theorem c3_commit_and_reveal_failures_witness :
    ((executeAudited sampleState commitFailClient id sampleReasoning
        (.ok "ok")).result = .error (.raised "commit-fail") ∧
     (executeAudited sampleState commitFailClient id sampleReasoning
        (.ok "ok")).state.actionLog = sampleState.actionLog ∧
     ∀ c ∈ (executeAudited sampleState commitFailClient id sampleReasoning
        (.ok "ok")).calls, c.isReveal = false) ∧
    ((executeAudited sampleState revealFailClient id sampleReasoning
        (.ok "ok")).result = .error (.raised "reveal-fail") ∧
     (executeAudited sampleState revealFailClient id sampleReasoning
        (.ok "ok")).state.actionLog = sampleState.actionLog) := by
  constructor
  · exact (c3_commit_and_reveal_failures sampleState commitFailClient id
      sampleReasoning sampleWallet rfl).1 (.raised "commit-fail") rfl (.ok "ok")
  · exact (c3_commit_and_reveal_failures sampleState revealFailClient id
      sampleReasoning sampleWallet rfl).2 sampleCommit "ok"
      (.raised "reveal-fail") rfl rfl

/-- C4 counterexample: a state with a wallet set but `registered` false —
reachable through the constructor and `initialize` with
`autoRegister: false` — has `isReady()` false, yet `executeAudited` does
not fail with `NotInitialized`: it proceeds and performs external calls,
contradicting the claim that every call made while `isReady()` is false
fails before any external call. -/
theorem c4_isReady_false_still_executes_cex :
    (initializeAgent (mkSolprismTreasury String c4CallerConfig) okClient
        sampleWallet)
      = (c4State, .ok (), []) ∧
    isReady c4State = false ∧
    (executeAudited c4State okClient id sampleReasoning (.ok "ok")).result
      ≠ .error (.notInitialized notInitializedMessage) ∧
    (executeAudited c4State okClient id sampleReasoning (.ok "ok")).calls
      ≠ [] := by
  refine ⟨?_, ?_, ?_, ?_⟩ <;> decide

/-- C4 amended: `executeAudited` fails with the `NotInitialized` error
before any external call — zero external calls, the action not invoked,
state unchanged — exactly when no wallet has been set; with a wallet set
the call proceeds to the commit step even if the agent is not marked
registered, because `ensureReady` consults only the wallet. -/
theorem c4_notInitialized_iff_no_wallet
    (st : SolprismTreasury α) (client : SolprismClientOracle ε ρ)
    (clock : Nat → Nat) (reasoning : TreasuryReasoning)
    (action : Except (TreasuryError ε) α) :
    (st.wallet = none →
      (executeAudited st client clock reasoning action).result
        = .error (.notInitialized notInitializedMessage) ∧
      (executeAudited st client clock reasoning action).calls = [] ∧
      (executeAudited st client clock reasoning action).state = st ∧
      (ensureReady st : Except (TreasuryError ε) Unit)
        = .error (.notInitialized notInitializedMessage)) ∧
    (∀ w, st.wallet = some w →
      (ensureReady st : Except (TreasuryError ε) Unit) = .ok () ∧
      (executeAudited st client clock reasoning action).calls.head?
        = some (.commitCall w (toReasoningTrace reasoning))) := by
  constructor
  · intro hw
    refine ⟨?_, ?_, ?_, ?_⟩ <;> simp [executeAudited, ensureReady, hw]
  · intro w hw
    refine ⟨?_, ?_⟩
    · simp [ensureReady, hw]
    · rcases hc : client.commitReasoning w (toReasoningTrace reasoning) with e | commit
      · simp [executeAudited, hw, hc]
      · rcases action with e | v
        · simp [executeAudited, hw, hc]
        · rcases hr : client.revealReasoning w commit.commitmentAddress
              (buildReasoningUri st.config reasoning commit) with e | reveal <;>
            simp [executeAudited, hw, hc, hr]

/-- C4 amended witness: both branches evaluated on concrete states — the
constructor state (no wallet) and the initialized fixture state. -/
theorem c4_notInitialized_iff_no_wallet_witness :
    ((executeAudited (mkSolprismTreasury String c4CallerConfig) okClient id
        sampleReasoning (.ok "ok")).result
      = .error (.notInitialized notInitializedMessage) ∧
     (executeAudited (mkSolprismTreasury String c4CallerConfig) okClient id
        sampleReasoning (.ok "ok")).calls = [] ∧
     (executeAudited (mkSolprismTreasury String c4CallerConfig) okClient id
        sampleReasoning (.ok "ok")).state
      = mkSolprismTreasury String c4CallerConfig ∧
     (ensureReady (mkSolprismTreasury String c4CallerConfig)
        : Except (TreasuryError String) Unit)
      = .error (.notInitialized notInitializedMessage)) ∧
    ((ensureReady sampleState : Except (TreasuryError String) Unit) = .ok () ∧
     (executeAudited sampleState okClient id sampleReasoning
        (.ok "ok")).calls.head?
      = some (.commitCall sampleWallet (toReasoningTrace sampleReasoning))) := by
  constructor
  · exact (c4_notInitialized_iff_no_wallet
      (mkSolprismTreasury String c4CallerConfig) okClient id sampleReasoning
      (.ok "ok")).1 rfl
  · exact (c4_notInitialized_iff_no_wallet sampleState okClient id
      sampleReasoning (.ok "ok")).2 sampleWallet rfl

/-- C5: `toReasoningTrace` is a pure, deterministic, total function: equal
inputs give equal traces; the decision confidence is exactly the fixed
low→90, medium→70, high→45, critical→20 lookup of the risk level; the
decision repeats the rationale and carries the expected outcome; and the
parameter mapping carries portfolio total value, positions, and constraints
exactly when those optional fields are present. -/
theorem c5_toReasoningTrace_pure_confidence_table (r other : TreasuryReasoning) :
    (other = r → toReasoningTrace other = toReasoningTrace r) ∧
    (toReasoningTrace r).decision.confidence = RISK_TO_CONFIDENCE r.risk.level ∧
    RISK_TO_CONFIDENCE .low = 90 ∧
    RISK_TO_CONFIDENCE .medium = 70 ∧
    RISK_TO_CONFIDENCE .high = 45 ∧
    RISK_TO_CONFIDENCE .critical = 20 ∧
    (toReasoningTrace r).decision.reasoning = r.rationale ∧
    (toReasoningTrace r).decision.expectedOutcome = r.expectedOutcome ∧
    (toReasoningTrace r).action.type = r.action ∧
    (toReasoningTrace r).action.description = r.rationale ∧
    (toReasoningTrace r).action.parameters.risk_level = r.risk.level ∧
    (toReasoningTrace r).action.parameters.risk_factors = r.risk.factors ∧
    (∀ pc, r.portfolioContext = some pc →
      (toReasoningTrace r).action.parameters.portfolio_value_usd
        = some pc.totalValueUSD ∧
      (toReasoningTrace r).action.parameters.positions = some pc.positions) ∧
    (r.portfolioContext = none →
      (toReasoningTrace r).action.parameters.portfolio_value_usd = none ∧
      (toReasoningTrace r).action.parameters.positions = none) ∧
    (∀ cs, r.constraints = some cs →
      (toReasoningTrace r).action.parameters.constraints = some cs) ∧
    (r.constraints = none →
      (toReasoningTrace r).action.parameters.constraints = none) := by
  refine ⟨fun h => h ▸ rfl, rfl, rfl, rfl, rfl, rfl, rfl, rfl, rfl, rfl, rfl,
    rfl, ?_, ?_, ?_, ?_⟩ <;>
    intro h <;>
    simp [toReasoningTrace, createReasoningTrace]
  · intro hpc
    simp [hpc]
  · simp [h]
  · simp [h]

/-- C5 witness: the trace properties evaluated on the concrete reasoning
fixture (which carries a portfolio context and no constraints). -/
theorem c5_toReasoningTrace_pure_confidence_table_witness :
    (toReasoningTrace sampleReasoning).decision.confidence
      = RISK_TO_CONFIDENCE sampleReasoning.risk.level ∧
    (toReasoningTrace sampleReasoning).decision.reasoning
      = sampleReasoning.rationale ∧
    (toReasoningTrace sampleReasoning).action.parameters.portfolio_value_usd
      = some 15000 ∧
    (toReasoningTrace sampleReasoning).action.parameters.constraints = none := by
  obtain ⟨-, hconf, -, -, -, -, hreas, -, -, -, -, -, hpc, -, -, hcs⟩ :=
    c5_toReasoningTrace_pure_confidence_table sampleReasoning sampleReasoning
  exact ⟨hconf, hreas,
    (hpc { totalValueUSD := 15000, positions := [("SOL", 1)] } rfl).1, hcs rfl⟩

/-- C6: on the success branch of `executeAudited` the reveal call receives
`{reasoningStorageUri}/{commitmentHash}` when a storage base URI is
configured, and otherwise the fixed default
`https://www.solprism.app/commitment/{commitmentAddress}`; the full call
sequence is commit, action, reveal with exactly those arguments. -/
theorem c6_reveal_uri_selection
    (st : SolprismTreasury α) (client : SolprismClientOracle ε ρ)
    (clock : Nat → Nat) (reasoning : TreasuryReasoning) (w : Wallet)
    (commit : CommitResult) (v : α)
    (hw : st.wallet = some w)
    (hc : client.commitReasoning w (toReasoningTrace reasoning) = .ok commit) :
    (executeAudited st client clock reasoning (.ok v)).calls
      = [.commitCall w (toReasoningTrace reasoning), .actionCall,
         .revealCall w commit.commitmentAddress
           (buildReasoningUri st.config reasoning commit)] ∧
    (∀ base, st.config.reasoningStorageUri = some base →
      buildReasoningUri st.config reasoning commit
        = base ++ "/" ++ commit.commitmentHash) ∧
    (st.config.reasoningStorageUri = none →
      buildReasoningUri st.config reasoning commit
        = "https://www.solprism.app/commitment/" ++ commit.commitmentAddress) := by
  refine ⟨?_, ?_, ?_⟩
  · rcases hr : client.revealReasoning w commit.commitmentAddress
        (buildReasoningUri st.config reasoning commit) with e | reveal <;>
      simp [executeAudited, hw, hc, hr]
  · intro base hbase
    simp [buildReasoningUri, hbase]
  · intro hnone
    simp [buildReasoningUri, hnone, SOLPRISM_EXPLORER]

/-- C6 witness: with no storage URI configured the reveal call receives the
explorer default; a second state with a configured base URI receives the
joined base/hash location. -/
theorem c6_reveal_uri_selection_witness :
    (executeAudited sampleState okClient id sampleReasoning (.ok "ok")).calls
      = [.commitCall sampleWallet (toReasoningTrace sampleReasoning),
         .actionCall,
         .revealCall sampleWallet sampleCommit.commitmentAddress
           (buildReasoningUri sampleState.config sampleReasoning sampleCommit)] ∧
    buildReasoningUri sampleState.config sampleReasoning sampleCommit
      = "https://www.solprism.app/commitment/" ++ sampleCommit.commitmentAddress ∧
    buildReasoningUri
        { sampleConfig with reasoningStorageUri := some "ipfs://base" }
        sampleReasoning sampleCommit
      = "ipfs://base" ++ "/" ++ sampleCommit.commitmentHash := by
  have h := c6_reveal_uri_selection sampleState okClient id sampleReasoning
    sampleWallet sampleCommit "ok" rfl rfl
  have h2 := c6_reveal_uri_selection
    { sampleState with
        config := { sampleConfig with reasoningStorageUri := some "ipfs://base" } }
    okClient id sampleReasoning sampleWallet sampleCommit "ok" rfl rfl
  exact ⟨h.1, h.2.2 rfl, h2.2.1 "ipfs://base" rfl⟩

/-- C7: every record returned by `executeAudited` (equivalently, the record
it appends to the session ledger) has timestamps with
committed ≤ executed ≤ revealed, provided the wall clock read at the
successive `new Date()` calls is monotone. -/
theorem c7_timestamps_ordered
    (st : SolprismTreasury α) (client : SolprismClientOracle ε ρ)
    (clock : Nat → Nat) (reasoning : TreasuryReasoning)
    (action : Except (TreasuryError ε) α) (record : AuditedActionResult α)
    (hmono : Monotone clock)
    (hok : (executeAudited st client clock reasoning action).result
      = .ok record) :
    record.timestamps.committed ≤ record.timestamps.executed ∧
    record.timestamps.executed ≤ record.timestamps.revealed ∧
    (executeAudited st client clock reasoning action).state.actionLog
      = st.actionLog ++ [record] := by
  rcases hw : st.wallet with _ | w
  · simp [executeAudited, hw] at hok
  · rcases hc : client.commitReasoning w (toReasoningTrace reasoning)
      with e | commit
    · simp [executeAudited, hw, hc] at hok
    · rcases action with e | v
      · simp [executeAudited, hw, hc] at hok
      · rcases hr : client.revealReasoning w commit.commitmentAddress
            (buildReasoningUri st.config reasoning commit) with e | reveal
        · simp [executeAudited, hw, hc, hr] at hok
        · simp only [executeAudited, hw, hc, hr] at hok ⊢
          simp only [Except.ok.injEq] at hok
          subst hok
          exact ⟨hmono (by norm_num), hmono (by norm_num), rfl⟩

/-- C7 witness: with the identity clock (monotone) the concrete success run
yields timestamps 3 ≤ 4 ≤ 5 and appends the record. -/
theorem c7_timestamps_ordered_witness :
    sampleRecord.timestamps.committed ≤ sampleRecord.timestamps.executed ∧
    sampleRecord.timestamps.executed ≤ sampleRecord.timestamps.revealed ∧
    (executeAudited sampleState okClient id sampleReasoning
        (.ok "ok")).state.actionLog = sampleState.actionLog ++ [sampleRecord] :=
  c7_timestamps_ordered sampleState okClient id sampleReasoning (.ok "ok")
    sampleRecord (fun _ _ h => h) rfl

/-- Reading below the old length is unchanged by an allocation. -/
theorem readArray_append_lt (h : LedgerHeap α)
    (xs : List (AuditedActionResult α)) (r : Nat) (hr : r < h.length) :
    readArray (h ++ [xs]) r = readArray h r := by
  simp [readArray, List.getElem?_append_left hr]

/-- Reading a freshly allocated cell yields its contents. -/
theorem readArray_append_self (h : LedgerHeap α)
    (xs : List (AuditedActionResult α)) :
    readArray (h ++ [xs]) h.length = xs := by
  simp [readArray]

/-- Mutating one cell leaves every other cell unchanged. -/
theorem readArray_set_ne (h : LedgerHeap α)
    (xs : List (AuditedActionResult α)) (r s : Nat) (hrs : r ≠ s) :
    readArray (writeArray h r xs) s = readArray h s := by
  simp [readArray, writeArray, List.getElem?_set_ne hrs]

/-- A snapshot's contents are the internal array's contents at snapshot
time, whatever the heap. -/
theorem getSessionLogH_reads (st : HeapOrch) (h : LedgerHeap α) :
    readArray (getSessionLogH st h).2 (getSessionLogH st h).1
      = readArray h st.actionLogRef :=
  readArray_append_self h (readArray h st.actionLogRef)

/-- C8: `getSessionLog()` is a defensive copy. On the array-heap model of
`return [...this.actionLog]`: the snapshot's contents equal the internal
ledger's contents; two snapshots with no intervening append read equal
sequences; and arbitrarily mutating the array returned by the first
snapshot changes neither the internal ledger, nor what a later
`getSessionLog()` returns, nor what `formatAuditReport()` renders. -/
theorem c8_sessionLog_defensive_copy (st : HeapOrch) (h : LedgerHeap α)
    (hv : st.actionLogRef < h.length) :
    readArray (getSessionLogH st h).2 (getSessionLogH st h).1
      = readArray h st.actionLogRef ∧
    readArray (getSessionLogH st (getSessionLogH st h).2).2
        (getSessionLogH st (getSessionLogH st h).2).1
      = readArray (getSessionLogH st h).2 (getSessionLogH st h).1 ∧
    (∀ xs,
      readArray (writeArray (getSessionLogH st h).2 (getSessionLogH st h).1 xs)
          st.actionLogRef
        = readArray h st.actionLogRef) ∧
    (∀ xs,
      readArray
          (getSessionLogH st
            (writeArray (getSessionLogH st h).2 (getSessionLogH st h).1 xs)).2
          (getSessionLogH st
            (writeArray (getSessionLogH st h).2 (getSessionLogH st h).1 xs)).1
        = readArray h st.actionLogRef) ∧
    (∀ xs,
      formatAuditReportH st
          (writeArray (getSessionLogH st h).2 (getSessionLogH st h).1 xs)
        = formatAuditReportH st h) := by
  have hcopy := getSessionLogH_reads st h
  have hold : readArray (getSessionLogH st h).2 st.actionLogRef
      = readArray h st.actionLogRef :=
    readArray_append_lt h (readArray h st.actionLogRef) st.actionLogRef hv
  have hmut : ∀ xs,
      readArray (writeArray (getSessionLogH st h).2 (getSessionLogH st h).1 xs)
          st.actionLogRef
        = readArray h st.actionLogRef := by
    intro xs
    have hne : (getSessionLogH st h).1 ≠ st.actionLogRef := by
      simp only [getSessionLogH, allocArray]
      omega
    rw [readArray_set_ne _ xs _ _ hne, hold]
  refine ⟨hcopy, ?_, hmut, ?_, ?_⟩
  · rw [getSessionLogH_reads, hold, hcopy]
  · intro xs
    rw [getSessionLogH_reads, hmut]
  · intro xs
    unfold formatAuditReportH
    rw [hmut]

/-- C8 witness: on a concrete one-record heap the snapshot reads the
internal record, and clearing the returned array does not change the
rendered report. -/
theorem c8_sessionLog_defensive_copy_witness :
    readArray (getSessionLogH c8Orch c8Heap).2 (getSessionLogH c8Orch c8Heap).1
      = [sampleRecord] ∧
    formatAuditReportH c8Orch
        (writeArray (getSessionLogH c8Orch c8Heap).2
          (getSessionLogH c8Orch c8Heap).1 [])
      = formatAuditReportH c8Orch c8Heap := by
  have h := c8_sessionLog_defensive_copy c8Orch c8Heap (by decide)
  exact ⟨h.1, h.2.2.2.2 []⟩

/-- Accumulating blocks with a left fold of pushes equals appending the
concatenation of all blocks. -/
theorem foldl_push_blocks (log : List (AuditedActionResult α)) :
    ∀ acc : List String,
      log.foldl (fun acc entry => acc ++ recordBlock entry) acc
        = acc ++ log.flatMap recordBlock := by
  induction log with
  | nil => intro acc; simp
  | cons e rest ih => intro acc; simp [ih, List.append_assoc]

/-- The concatenation of blocks has exactly eight lines per record. -/
theorem flatMap_recordBlock_length (log : List (AuditedActionResult α)) :
    (log.flatMap recordBlock).length = 8 * log.length := by
  induction log with
  | nil => simp
  | cons e rest ih => simp [recordBlock, ih]; ring

/-- C9: `formatAuditReport()` on an empty session ledger returns exactly
the fixed empty-state sentinel; on a ledger of N records it is the
newline-join of a header carrying the agent name and the record count N,
followed by the records' blocks in insertion order — exactly N blocks of
eight lines each — and the fixed footer; each block shows the record's
action kind, rationale, risk level and factors, expected outcome,
truncated commitment hash, explorer URL, and committed timestamp. -/
theorem c9_formatAuditReport_structure (st : SolprismTreasury α) :
    (st.actionLog = [] →
      formatAuditReport st = "No audited actions in this session.") ∧
    (∀ first rest, st.actionLog = first :: rest →
      formatAuditReport st
        = String.intercalate "\n"
            ([reportDivider,
              "  SOLPRISM Audit Report — Agent Treasury Manager",
              reportDivider,
              "",
              "  Agent: " ++ st.config.agentName,
              "  Actions: " ++ toString st.actionLog.length,
              "  Session: " ++ toISOString first.timestamps.committed,
              ""]
             ++ st.actionLog.flatMap recordBlock
             ++ [reportDivider,
                 "  Verify any action: https://www.solprism.app/",
                 reportDivider]) ∧
      (st.actionLog.flatMap recordBlock).length = 8 * st.actionLog.length) ∧
    (∀ entry : AuditedActionResult α,
      recordBlock entry
        = ["  ┌─ " ++ (actionTypeString entry.reasoning.action).toUpper,
           "  │  Rationale: " ++ entry.reasoning.rationale,
           "  │  Risk: " ++ riskLevelString entry.reasoning.risk.level ++ " (" ++
             String.intercalate ", " entry.reasoning.risk.factors ++ ")",
           "  │  Expected: " ++ entry.reasoning.expectedOutcome,
           "  │  Commitment: " ++ entry.commit.commitmentHash.take 16 ++ "...",
           "  │  Explorer: " ++ entry.explorerUrl,
           "  └─ Committed " ++ toISOString entry.timestamps.committed,
           ""]) := by
  refine ⟨?_, ?_, fun _ => rfl⟩
  · intro hnil
    simp [formatAuditReport, formatAuditReportOn, hnil, emptyReportMessage]
  · intro first rest hcons
    refine ⟨?_, flatMap_recordBlock_length _⟩
    simp only [formatAuditReport, formatAuditReportOn, hcons,
      foldl_push_blocks, List.append_assoc]

/-- C9 witness: the report over the one-record fixture log equals its
header, single block, and footer joined by newlines, and the empty log
yields the sentinel. -/
theorem c9_formatAuditReport_structure_witness :
    formatAuditReport sampleState = "No audited actions in this session." ∧
    formatAuditReport { sampleState with actionLog := [sampleRecord] }
      = String.intercalate "\n"
          ([reportDivider,
            "  SOLPRISM Audit Report — Agent Treasury Manager",
            reportDivider,
            "",
            "  Agent: " ++ sampleConfig.agentName,
            "  Actions: " ++ toString ([sampleRecord].length),
            "  Session: " ++ toISOString sampleRecord.timestamps.committed,
            ""]
           ++ [sampleRecord].flatMap recordBlock
           ++ [reportDivider,
               "  Verify any action: https://www.solprism.app/",
               reportDivider]) ∧
    ([sampleRecord].flatMap recordBlock).length = 8 * [sampleRecord].length := by
  have hempty := (c9_formatAuditReport_structure sampleState).1 rfl
  have hone := (c9_formatAuditReport_structure
    { sampleState with actionLog := [sampleRecord] }).2.1 sampleRecord [] rfl
  exact ⟨hempty, hone.1, hone.2⟩

/-- C10: `getAccountabilityScore()` and `getAuditHistory(limit)` require a
wallet: without one they throw the same `NotInitialized` error as
`executeAudited` and invoke nothing on the external client; with a wallet
set they return the external client's result unchanged. `verifyAction`, by
contrast, always delegates to the client's verify call, wallet or not. -/
theorem c10_score_history_require_wallet
    (st : SolprismTreasury α) (client : SolprismClientOracle ε ρ)
    (limit : Nat) (clock : Nat → Nat) (reasoning : TreasuryReasoning)
    (action : Except (TreasuryError ε) α) (commitmentAddress : String) :
    (st.wallet = none →
      getAccountabilityScore st client
        = (.error (.notInitialized notInitializedMessage), []) ∧
      getAuditHistory st client limit
        = (.error (.notInitialized notInitializedMessage), []) ∧
      (executeAudited st client clock reasoning action).result
        = .error (.notInitialized notInitializedMessage)) ∧
    (∀ w, st.wallet = some w →
      getAccountabilityScore st client
        = (client.getAccountability w.publicKey,
           [.getAccountabilityCall w.publicKey]) ∧
      getAuditHistory st client limit
        = (client.getAgentCommitments w.publicKey limit,
           [.getAgentCommitmentsCall w.publicKey limit])) ∧
    (verifyAction client commitmentAddress reasoning).2
      = [.verifyCall commitmentAddress (toReasoningTrace reasoning)] := by
  refine ⟨?_, ?_, ?_⟩
  · intro hw
    refine ⟨?_, ?_, ?_⟩ <;>
      simp [getAccountabilityScore, getAuditHistory, executeAudited, hw]
  · intro w hw
    refine ⟨?_, ?_⟩ <;> simp [getAccountabilityScore, getAuditHistory, hw]
  · rcases hv : client.verifyReasoning commitmentAddress
        (toReasoningTrace reasoning) with e | res <;>
      simp [verifyAction, hv]

/-- C10 witness: the three branches evaluated on concrete states — the
never-initialized constructor state and the initialized fixture state. -/
theorem c10_score_history_require_wallet_witness :
    (getAccountabilityScore (mkSolprismTreasury String c4CallerConfig) okClient
      = (.error (.notInitialized notInitializedMessage), []) ∧
     getAuditHistory (mkSolprismTreasury String c4CallerConfig) okClient 50
      = (.error (.notInitialized notInitializedMessage), []) ∧
     (executeAudited (mkSolprismTreasury String c4CallerConfig) okClient id
        sampleReasoning (.ok "ok")).result
      = .error (.notInitialized notInitializedMessage)) ∧
    (getAccountabilityScore sampleState okClient
      = (okClient.getAccountability sampleWallet.publicKey,
         [.getAccountabilityCall sampleWallet.publicKey]) ∧
     getAuditHistory sampleState okClient 50
      = (okClient.getAgentCommitments sampleWallet.publicKey 50,
         [.getAgentCommitmentsCall sampleWallet.publicKey 50])) ∧
    (verifyAction okClient "addr123" sampleReasoning).2
      = [.verifyCall "addr123" (toReasoningTrace sampleReasoning)] := by
  obtain ⟨hnone, hsome, hverify⟩ := c10_score_history_require_wallet
    (mkSolprismTreasury String c4CallerConfig) okClient 50 id sampleReasoning
    (.ok "ok") "addr123"
  obtain ⟨-, hsome2, -⟩ := c10_score_history_require_wallet sampleState
    okClient 50 id sampleReasoning (.ok "ok") "addr123"
  exact ⟨hnone rfl, hsome2 sampleWallet rfl, hverify⟩

end AgentTreasury
